import Mathlib

/-!
# Hardhat-Lottery deploy scripts

A shallow embedding of the three deploy scripts of the repository
(`deploy/00-deploy-mocks.js`, `deploy/01-deploy-lottery.js`,
`deploy/99-update-front-end.js`) and the properties of them that are proved.

The scripts are sequential glue code around external collaborators (the
hardhat-deploy framework, ethers, the file system).  A run is modelled as the
list of external calls it makes, in order, together with its outcome and the
deployment records saved by hardhat-deploy; the answer the outside world gives
to each call is part of the input.
-/

namespace HardhatLottery

/-! ## The front-end address map (`99-update-front-end.js`) -/

/-- The object obtained by `JSON.parse` from `contractAddresses.json`: own
properties in order, each a chain id string with its array of addresses.
Property reads, `in` and assignment always act on the first entry that
carries the key.  The place at which `JSON.stringify` writes a property is not
modelled; the properties proved speak of the value found under each key. -/
abbrev AddressMap := List (String × List String)

/-- The test `chainId in currentAddresses`.  A chain id string is the decimal
numeral of `network.config.chainId`; no inherited property has such a name, so
only the object's own properties count. -/
def hasKey (currentAddresses : AddressMap) (chainId : String) : Bool :=
  currentAddresses.any (fun kv => kv.1 == chainId)

/-- The read `currentAddresses[chainId]`; `none` stands for `undefined`. -/
def getKey : AddressMap → String → Option (List String)
  | [], _ => none
  | (k, v) :: rest, chainId => if k == chainId then some v else getKey rest chainId

/-- The write `currentAddresses[chainId] = v`: an existing property keeps its
place, a new one is added after the others. -/
def setKey : AddressMap → String → List String → AddressMap
  | [], chainId, v => [(chainId, v)]
  | (k, old) :: rest, chainId, v =>
    if k == chainId then (k, v) :: rest else (k, old) :: setKey rest chainId v

/-- The body of `updateContractAddresses` between reading the file and writing
it back (lines 39-45): the map that is written, from the map that was read,
`chainId` and `lottery.address`.  The `none` case of the read does not occur
once `in` holds; it is there to make the function total. -/
def updateContractAddresses (currentAddresses : AddressMap) (chainId : String)
    (address : String) : AddressMap :=
  if hasKey currentAddresses chainId then
    match getKey currentAddresses chainId with
    | some list =>
      if !list.contains address then
        setKey currentAddresses chainId (list ++ [address])
      else
        currentAddresses
    | none => currentAddresses
  else
    setKey currentAddresses chainId [address]

/-! ## Values, configuration and the outside world -/

/-- The JavaScript values that flow through the deploy scripts. -/
inductive JSVal
  | undefined
  | str (s : String)
  | num (n : Nat)
  | big (n : Nat)
  deriving DecidableEq

/-- JavaScript truthiness: `undefined`, the empty string and the number `0`
are falsy; a `BigNumber` is an object and so always truthy. -/
def truthy : JSVal → Bool
  | .undefined => false
  | .str s => s != ""
  | .num n => n != 0
  | .big _ => true

/-- The expression `a || b`. -/
def jsOr (a b : JSVal) : JSVal := if truthy a then a else b

/-- The value of `process.env.NAME`: a string when the variable is set,
`undefined` when it is not. -/
def envVal : Option String → JSVal
  | some s => .str s
  | none => .undefined

/-- One entry of `networkConfig`: property names with their values. -/
abbrev ConfigEntry := List (String × JSVal)

/-- The read `entry[key]` on an entry that exists: the value of the first
property of that name, `undefined` when there is none. -/
def prop : ConfigEntry → String → JSVal
  | [], _ => .undefined
  | (k, v) :: rest, key => if k == key then v else prop rest key

/-- The property key a chain id is converted to in `networkConfig[chainId]`:
its decimal numeral (chain ids are far below the size at which JavaScript
switches to exponent form), or `"undefined"`. -/
def chainKey : Option Nat → String
  | some n => toString n
  | none => "undefined"

/-- The read `networkConfig[chainId]`; `none` stands for `undefined`. -/
def lookupConfig : List (String × ConfigEntry) → String → Option ConfigEntry
  | [], _ => none
  | (k, e) :: rest, key => if k == key then some e else lookupConfig rest key

/-- Why a script stops early: a `TypeError` raised by the script's own
evaluation (a property read on `undefined`), or the rejection of an awaited
call to a collaborator. -/
inductive Err
  | typeError
  | rejected (reason : String)
  deriving DecidableEq

/-- The calls a script makes to its collaborators. -/
inductive Call
  | getNamedAccounts
  | log (msg : String)
  | consoleLog (msg : String)
  | deploy (name : String) (sender : JSVal) (args : List JSVal) (log : Bool)
      (waitConfirmations : JSVal)
  | getContract (name : String)
  | createSubscription
  | wait (confirmations : Nat)
  | fundSubscription (subId : JSVal) (amount : JSVal)
  | verify (address : JSVal) (args : List JSVal)
  | readFileSync (path : String)
  | writeAddresses (path : String) (content : AddressMap)
  | writeABI (path : String)
  deriving DecidableEq

/-- Everything a run of the scripts depends on: the Hardhat network, the
environment, the two tables of `helper-hardhat-config` (that module is not
part of the sources, so its exports are inputs), and the answer each
collaborator gives when it is called (`error` is a rejection). -/
structure World where
  /-- The value of `network.name`. -/
  networkName : String
  /-- The value of `network.config.chainId`, `none` for `undefined`. -/
  chainId : Option Nat
  /-- The value of `network.config.blockConfirmations`. -/
  blockConfirmations : JSVal
  /-- The variable `process.env.ETHERSCAN_API_KEY`, `none` when unset. -/
  ETHERSCAN_API_KEY : Option String
  /-- The variable `process.env.UPDATE_FRONT_END`, `none` when unset. -/
  UPDATE_FRONT_END : Option String
  developmentChains : List String
  networkConfig : List (String × ConfigEntry)
  /-- The `deployer` of `await getNamedAccounts()`. -/
  namedAccounts : Except String JSVal
  /-- The `address` of `await ethers.getContract("VRFCoordinatorV2Mock")`. -/
  mockContract : Except String JSVal
  /-- The answer to `await vrfCoordinatorV2Mock.createSubscription()`. -/
  subscriptionTx : Except String Unit
  /-- The `events` of `await transactionResponse.wait(1)`: for each event its
  `args.subId`, or `none` for an event without `args`. -/
  receiptEvents : Except String (List (Option JSVal))
  /-- The answer to `await vrfCoordinatorV2Mock.fundSubscription(..)`. -/
  funding : Except String Unit
  /-- The answer to `await deploy("VRFCoordinatorV2Mock", ..)`. -/
  mockDeployment : Except String JSVal
  /-- The `address` of `await deploy("Lottery", ..)`. -/
  lotteryDeployment : Except String JSVal
  /-- The answer to `await verify(..)`. -/
  verification : Except String Unit
  /-- The `address` of `await ethers.getContract("Lottery")`. -/
  lotteryContract : Except String String
  /-- The parsed content of the front end's address file. -/
  addressesFile : Except String AddressMap

/-! ## Runs -/

/-- A deployment record as hardhat-deploy saves it when a call of `deploy`
returns: the name it is saved under, the address of the deployed contract and
the constructor arguments used. -/
structure DeploymentRecord where
  name : String
  address : JSVal
  args : List JSVal
  deriving DecidableEq

/-- A run of a piece of script: the calls made, in order, how it ended, and
the deployment records hardhat-deploy saved during it, in order. -/
structure Script (α : Type) where
  calls : List Call
  result : Except Err α
  saved : List DeploymentRecord

/-- A step that makes no call and yields `a`. -/
def Script.ret {α : Type} (a : α) : Script α := ⟨[], .ok a, []⟩

/-- Sequencing: the second part runs only when the first did not stop early. -/
def Script.andThen {α β : Type} (x : Script α) (f : α → Script β) : Script β :=
  match x.result with
  | .error e => ⟨x.calls, .error e, x.saved⟩
  | .ok a => ⟨x.calls ++ (f a).calls, (f a).result, x.saved ++ (f a).saved⟩

instance : Monad Script where
  pure := Script.ret
  bind := Script.andThen

/-- An awaited call to a collaborator, with the answer it gives. -/
def await {α : Type} (c : Call) (answer : Except String α) : Script α :=
  match answer with
  | .ok a => ⟨[c], .ok a, []⟩
  | .error reason => ⟨[c], .error (.rejected reason), []⟩

/-- The awaited call `deploy(name, { from, args, log, waitConfirmations })` of
hardhat-deploy, with the address of the deployment it answers.  When the call
returns, the framework has saved the deployment record under `name`; a call
that is rejected saves nothing. -/
def deploy (name : String) (sender : JSVal) (args : List JSVal) (log : Bool)
    (waitConfirmations : JSVal) (answer : Except String JSVal) : Script JSVal :=
  match answer with
  | .ok address =>
    ⟨[.deploy name sender args log waitConfirmations], .ok address, [⟨name, address, args⟩]⟩
  | .error reason =>
    ⟨[.deploy name sender args log waitConfirmations], .error (.rejected reason), []⟩

/-- A call whose result is not used and that does not fail (`log`). -/
def tell (c : Call) : Script Unit := ⟨[c], .ok (), []⟩

/-- A property read on a value that may be `undefined`: a `TypeError` then. -/
def defined {α : Type} : Option α → Script α
  | some a => ⟨[], .ok a, []⟩
  | none => ⟨[], .error .typeError, []⟩

/-- An `async` function started without `await`: its calls are made, its
failure is not seen by the caller. -/
def detached (x : Script Unit) : Script Unit := ⟨x.calls, .ok (), x.saved⟩

/-! ## `deploy/00-deploy-mocks.js` -/

/-- The constant `ethers.utils.parseEther("0.25")`, in wei. -/
def BASE_FEE : JSVal := .big 250000000000000000

/-- The constant `1e9`. -/
def GAS_PRICE_LINK : JSVal := .num 1000000000

/-- The exported function of `00-deploy-mocks.js`. -/
def deployMocks (w : World) : Script Unit := do
  let deployer ← await .getNamedAccounts w.namedAccounts
  let args := [BASE_FEE, GAS_PRICE_LINK]
  if w.developmentChains.contains w.networkName then
    tell (.log "Local network detected. Deploying mocks...")
    let _ ← deploy "VRFCoordinatorV2Mock" deployer args true .undefined w.mockDeployment
    tell (.log "Mocks deployed!")
    tell (.log "---------------------------------------------")
  else
    pure ()

/-! ## `deploy/01-deploy-lottery.js` -/

/-- The constant `ethers.utils.parseEther("30")`, in wei. -/
def VRF_SUB_FUND_AMOUNT : JSVal := .big 30000000000000000000

/-- The read `transactionReceipt.events[0].args.subId`. -/
def firstSubId : List (Option JSVal) → Option JSVal
  | [] => none
  | e :: _ => e

/-- The read `networkConfig[chainId][key]`: a `TypeError` when the table has no
entry for the chain id, `undefined` when the entry has no such property. -/
def configProp (w : World) (key : String) : Script JSVal := do
  let entry ← defined (lookupConfig w.networkConfig (chainKey w.chainId))
  pure (prop entry key)

/-- Lines 46-57: the oracle address and the subscription id. -/
def subscription (w : World) : Script (JSVal × JSVal) :=
  if w.developmentChains.contains w.networkName then do
    let vrfCoordinatorV2Address ← await (.getContract "VRFCoordinatorV2Mock") w.mockContract
    await .createSubscription w.subscriptionTx
    let events ← await (.wait 1) w.receiptEvents
    let subscriptionId ← defined (firstSubId events)
    await (.fundSubscription subscriptionId VRF_SUB_FUND_AMOUNT) w.funding
    pure (vrfCoordinatorV2Address, subscriptionId)
  else do
    let vrfCoordinatorV2Address ← configProp w "vrfCoordinatorV2"
    let subscriptionId ← configProp w "subscriptionId"
    pure (vrfCoordinatorV2Address, subscriptionId)

/-- The exported function of `01-deploy-lottery.js`. -/
def deployLottery (w : World) : Script Unit := do
  let deployer ← await .getNamedAccounts w.namedAccounts
  let (vrfCoordinatorV2Address, subscriptionId) ← subscription w
  let entranceFee ← configProp w "entranceFee"
  let gasLane ← configProp w "gasLane"
  let callBackGasLimit ← configProp w "callBackGasLimit"
  let interval ← configProp w "interval"
  let args := [vrfCoordinatorV2Address, entranceFee, gasLane, subscriptionId,
    callBackGasLimit, interval]
  let lotteryAddress ← deploy "Lottery" deployer args true
    (jsOr w.blockConfirmations (.num 1)) w.lotteryDeployment
  if !w.developmentChains.contains w.networkName
      && truthy (envVal w.ETHERSCAN_API_KEY) then
    tell (.log "Verifying...")
    await (.verify lotteryAddress args) w.verification
  tell (.log "---------------------------------------------")

/-! ## `deploy/99-update-front-end.js` -/

def FRONT_END_ADDRESSES_FILE : String :=
  "../nextjs-smartcontract-lottery/constants/contractAddresses.json"

def FRONT_END_ABI_FILE : String :=
  "../nextjs-smartcontract-lottery/constants/abi.json"

/-- What `updateContractAddresses` does once `ethers.getContract("Lottery")`
has answered: `chainId.toString()` (a `TypeError` on `undefined`), the read
of the address file, the update of the map and the write. -/
def updateContractAddressesJob (w : World) : Script Unit := do
  let address ← defined (match w.lotteryContract with
    | .ok a => some a
    | .error _ => none)
  let chainId ← defined (w.chainId.map toString)
  let currentAddresses ← await (.readFileSync FRONT_END_ADDRESSES_FILE) w.addressesFile
  tell (.writeAddresses FRONT_END_ADDRESSES_FILE
    (updateContractAddresses currentAddresses chainId address))

/-- What `updateABI` does once `ethers.getContract("Lottery")` has answered. -/
def updateABIJob (w : World) : Script Unit := do
  let _ ← defined (match w.lotteryContract with
    | .ok a => some a
    | .error _ => none)
  tell (.writeABI FRONT_END_ABI_FILE)

/-- The exported function of `99-update-front-end.js`.  The two functions are
started without `await`: each runs up to its first `await` (the call of
`ethers.getContract`) when it is started, and the rest of each is listed after
both have started; no failure in them reaches the exported function. -/
def updateFrontEnd (w : World) : Script Unit := do
  if truthy (envVal w.UPDATE_FRONT_END) then
    tell (.consoleLog "Updating front end...")
    tell (.getContract "Lottery")
    tell (.getContract "Lottery")
    detached (updateContractAddressesJob w)
    detached (updateABIJob w)

/-! ## A full run of the deploy scripts -/

/-- The three scripts in the order of their file names; a script that fails
aborts the run. -/
def fullRun (w : World) : Script Unit := do
  deployMocks w
  deployLottery w
  updateFrontEnd w

/-- Whether a call is a call of `deploy`. -/
def Call.isDeploy : Call → Bool
  | .deploy _ _ _ _ _ => true
  | _ => false

/-- Whether a call is a call of `verify`. -/
def Call.isVerify : Call → Bool
  | .verify _ _ => true
  | _ => false

/-- Whether a call is one of the mock oracle's entry points used by the
lottery deploy step. -/
def Call.isMockEntry : Call → Bool
  | .getContract name => name == "VRFCoordinatorV2Mock"
  | .createSubscription => true
  | .fundSubscription _ _ => true
  | _ => false

/-- The number of calls of `deploy` in a run, returned or not. -/
def deployCalls (calls : List Call) : Nat :=
  (calls.filter Call.isDeploy).length

/-- Saving a record: hardhat-deploy keeps one record for each name, a later
one taking the place of an earlier one of the same name. -/
def saveRecord : List DeploymentRecord → DeploymentRecord → List DeploymentRecord
  | [], r => [r]
  | s :: rest, r => if s.name == r.name then r :: rest else s :: saveRecord rest r

/-- The deployment records a run produces: what it saved, in order, into a
store that keeps one record for each name. -/
def deploymentRecords {α : Type} (x : Script α) : List DeploymentRecord :=
  x.saved.foldl saveRecord []

/-- The number of calls of `verify` in a run. -/
def verifyCalls (calls : List Call) : Nat :=
  (calls.filter Call.isVerify).length

/-! ## Sample worlds -/

/-- A table in the shape of `networkConfig`: a test network with every key and
the local network without oracle address and subscription id. -/
def sampleConfig : List (String × ConfigEntry) :=
  [("5", [("vrfCoordinatorV2", .str "0xC0"), ("subscriptionId", .str "7"),
      ("entranceFee", .big 10000000000000000), ("gasLane", .str "0x79"),
      ("callBackGasLimit", .str "500000"), ("interval", .str "30")]),
   ("31337", [("entranceFee", .big 10000000000000000), ("gasLane", .str "0x79"),
      ("callBackGasLimit", .str "500000"), ("interval", .str "30")])]

/-- The local Hardhat network, every collaborator answering. -/
def localWorld : World where
  networkName := "hardhat"
  chainId := some 31337
  blockConfirmations := .undefined
  ETHERSCAN_API_KEY := some "KEY"
  UPDATE_FRONT_END := some "true"
  developmentChains := ["hardhat", "localhost"]
  networkConfig := sampleConfig
  namedAccounts := .ok (.str "0xD0")
  mockContract := .ok (.str "0xM0")
  subscriptionTx := .ok ()
  receiptEvents := .ok [some (.big 1)]
  funding := .ok ()
  mockDeployment := .ok (.str "0xM0")
  lotteryDeployment := .ok (.str "0xL0")
  verification := .ok ()
  lotteryContract := .ok "0xL0"
  addressesFile := .ok [("31337", ["0xAAA"])]

/-- A test network with a complete configuration entry, six confirmations and
an explorer key, every collaborator answering. -/
def remoteWorld : World :=
  { localWorld with
    networkName := "goerli"
    chainId := some 5
    blockConfirmations := .num 6 }

/-- The test network when the Lottery deployment is rejected. -/
def remoteWorldDeployRejected : World :=
  { remoteWorld with lotteryDeployment := .error "insufficient funds" }

/-- The test network with `ETHERSCAN_API_KEY` set to the empty string. -/
def remoteWorldEmptyKey : World :=
  { remoteWorld with ETHERSCAN_API_KEY := some "" }

/-- The test network with `ETHERSCAN_API_KEY` unset. -/
def remoteWorldNoKey : World :=
  { remoteWorld with ETHERSCAN_API_KEY := none }

/-- The test network with an entry that has no `subscriptionId`. -/
def remoteWorldMissingKey : World :=
  { remoteWorld with
    networkConfig :=
      [("5", [("vrfCoordinatorV2", .str "0xC0"),
        ("entranceFee", .big 10000000000000000), ("gasLane", .str "0x79"),
        ("callBackGasLimit", .str "500000"), ("interval", .str "30")])] }

/-- The test network with no entry for its chain id. -/
def remoteWorldNoEntry : World :=
  { remoteWorld with chainId := some 4 }

/-- The test network configured with `blockConfirmations: 0`. -/
def remoteWorldZeroConfirmations : World :=
  { remoteWorld with blockConfirmations := .num 0 }

/-! ### Lemmas on the address map -/

theorem hasKey_eq_isSome (m : AddressMap) (c : String) :
    hasKey m c = (getKey m c).isSome := by
  induction m with
  | nil => rfl
  | cons kv rest ih =>
    obtain ⟨k, v⟩ := kv
    by_cases h : k = c
    · simp [hasKey, getKey, h]
    · have ih2 : rest.any (fun kv => kv.1 == c) = (getKey rest c).isSome := ih
      simp [hasKey, getKey, h, ih2]

theorem getKey_setKey_same (m : AddressMap) (c : String) (v : List String) :
    getKey (setKey m c v) c = some v := by
  induction m with
  | nil => simp [setKey, getKey]
  | cons kv rest ih =>
    obtain ⟨k, old⟩ := kv
    by_cases h : k = c
    · simp [setKey, getKey, h]
    · simp [setKey, getKey, h, ih]

theorem getKey_setKey_other (m : AddressMap) (c d : String) (v : List String)
    (hd : d ≠ c) : getKey (setKey m c v) d = getKey m d := by
  induction m with
  | nil =>
    have : ¬ c = d := fun h => hd h.symm
    simp [setKey, getKey, this]
  | cons kv rest ih =>
    obtain ⟨k, old⟩ := kv
    have hcd : ¬ c = d := fun h => hd h.symm
    by_cases h : k = c
    · subst h
      simp [setKey, getKey, hcd]
    · by_cases h2 : k = d
      · subst h2
        simp [setKey, getKey, h]
      · simp [setKey, getKey, h, h2, ih]

/-- The list that `updateContractAddresses` leaves under the exported chain id,
in terms of the list that was there. -/
theorem getKey_update_same (m : AddressMap) (c a : String) :
    getKey (updateContractAddresses m c a) c =
      some (match getKey m c with
        | some l => if a ∈ l then l else l ++ [a]
        | none => [a]) := by
  unfold updateContractAddresses
  rw [hasKey_eq_isSome]
  cases hg : getKey m c with
  | none => simp [getKey_setKey_same]
  | some l =>
    by_cases ha : a ∈ l
    · simp [ha, hg]
    · simp [ha, getKey_setKey_same]

theorem getKey_update_other (m : AddressMap) (c a d : String) (hd : d ≠ c) :
    getKey (updateContractAddresses m c a) d = getKey m d := by
  unfold updateContractAddresses
  rw [hasKey_eq_isSome]
  cases hg : getKey m c with
  | none => simp [getKey_setKey_other _ _ _ _ hd]
  | some l =>
    by_cases ha : a ∈ l
    · simp [ha]
    · simp [ha, getKey_setKey_other _ _ _ _ hd]


/-! ### Lemmas on runs -/

@[simp] theorem Script.calls_bind {α β : Type} (x : Script α) (f : α → Script β) :
    (x >>= f).calls = match x.result with
      | .error _ => x.calls
      | .ok a => x.calls ++ (f a).calls := by
  show (Script.andThen x f).calls = _
  unfold Script.andThen
  cases x.result <;> rfl

@[simp] theorem Script.result_bind {α β : Type} (x : Script α) (f : α → Script β) :
    (x >>= f).result = match x.result with
      | .error e => .error e
      | .ok a => (f a).result := by
  show (Script.andThen x f).result = _
  unfold Script.andThen
  cases x.result <;> rfl

@[simp] theorem Script.calls_pure {α : Type} (a : α) : (pure a : Script α).calls = [] := rfl

@[simp] theorem Script.result_pure {α : Type} (a : α) :
    (pure a : Script α).result = .ok a := rfl

@[simp] theorem calls_await {α : Type} (c : Call) (answer : Except String α) :
    (await c answer).calls = [c] := by
  cases answer <;> rfl

@[simp] theorem result_await_ok {α : Type} (c : Call) (a : α) :
    (await c (.ok a)).result = .ok a := rfl

@[simp] theorem result_await_error {α : Type} (c : Call) (reason : String) :
    (await c (.error reason : Except String α)).result = .error (.rejected reason) := rfl

@[simp] theorem calls_deploy (name : String) (sender : JSVal) (args : List JSVal) (lg : Bool)
    (wc : JSVal) (answer : Except String JSVal) :
    (deploy name sender args lg wc answer).calls = [.deploy name sender args lg wc] := by
  cases answer <;> rfl

@[simp] theorem result_deploy_ok (name : String) (sender : JSVal) (args : List JSVal)
    (lg : Bool) (wc address : JSVal) :
    (deploy name sender args lg wc (.ok address)).result = .ok address := rfl

@[simp] theorem result_deploy_error (name : String) (sender : JSVal) (args : List JSVal)
    (lg : Bool) (wc : JSVal) (reason : String) :
    (deploy name sender args lg wc (.error reason)).result = .error (.rejected reason) := rfl

@[simp] theorem saved_deploy_ok (name : String) (sender : JSVal) (args : List JSVal)
    (lg : Bool) (wc address : JSVal) :
    (deploy name sender args lg wc (.ok address)).saved = [⟨name, address, args⟩] := rfl

@[simp] theorem saved_deploy_error (name : String) (sender : JSVal) (args : List JSVal)
    (lg : Bool) (wc : JSVal) (reason : String) :
    (deploy name sender args lg wc (.error reason)).saved = [] := rfl

@[simp] theorem Script.saved_bind {α β : Type} (x : Script α) (f : α → Script β) :
    (x >>= f).saved = match x.result with
      | .error _ => x.saved
      | .ok a => x.saved ++ (f a).saved := by
  show (Script.andThen x f).saved = _
  unfold Script.andThen
  cases x.result <;> rfl

@[simp] theorem Script.saved_pure {α : Type} (a : α) : (pure a : Script α).saved = [] := rfl

@[simp] theorem saved_await {α : Type} (c : Call) (answer : Except String α) :
    (await c answer).saved = [] := by
  cases answer <;> rfl

@[simp] theorem saved_tell (c : Call) : (tell c).saved = [] := rfl

@[simp] theorem saved_defined {α : Type} (o : Option α) : (defined o).saved = [] := by
  cases o <;> rfl

@[simp] theorem saved_detached (x : Script Unit) : (detached x).saved = x.saved := rfl

@[simp] theorem calls_tell (c : Call) : (tell c).calls = [c] := rfl

@[simp] theorem result_tell (c : Call) : (tell c).result = .ok () := rfl

@[simp] theorem calls_defined {α : Type} (o : Option α) : (defined o).calls = [] := by
  cases o <;> rfl

@[simp] theorem result_defined_some {α : Type} (a : α) :
    (defined (some a)).result = .ok a := rfl

@[simp] theorem result_defined_none {α : Type} :
    (defined (none : Option α)).result = .error .typeError := rfl

@[simp] theorem calls_detached (x : Script Unit) : (detached x).calls = x.calls := rfl

@[simp] theorem result_detached (x : Script Unit) : (detached x).result = .ok () := rfl

/-! ## The address export -/

/-- C1: the list that `updateContractAddresses` writes for the exported chain
id `c` is (i) the existing list, unchanged, when `c` is a key and the address
is already in the list (the whole map is then unchanged), (ii) the existing
list with the address appended last when `c` is a key and the address is not in
the list, (iii) the one-element list when `c` is not a key.  For chain id
`31337` with `["0xAAA"]`, exporting `0xBBB` gives `["0xAAA","0xBBB"]` and
exporting `0xAAA` afterwards changes nothing. -/
theorem updateContractAddresses_cases (m : AddressMap) (c a : String) :
    (∀ l, hasKey m c = true → getKey m c = some l → a ∈ l →
      getKey (updateContractAddresses m c a) c = some l ∧
        updateContractAddresses m c a = m) ∧
    (∀ l, hasKey m c = true → getKey m c = some l → a ∉ l →
      getKey (updateContractAddresses m c a) c = some (l ++ [a])) ∧
    (hasKey m c = false → getKey (updateContractAddresses m c a) c = some [a]) ∧
    updateContractAddresses [("31337", ["0xAAA"])] "31337" "0xBBB"
      = [("31337", ["0xAAA", "0xBBB"])] ∧
    updateContractAddresses
      (updateContractAddresses [("31337", ["0xAAA"])] "31337" "0xBBB") "31337" "0xAAA"
      = [("31337", ["0xAAA", "0xBBB"])] := by
  refine ⟨?_, ?_, ?_, ?_, ?_⟩
  · intro l hk hg ha
    constructor
    · rw [getKey_update_same, hg]; simp [ha]
    · simp [updateContractAddresses, hk, hg, ha]
  · intro l _ hg ha
    rw [getKey_update_same, hg]; simp [ha]
  · intro hk
    rw [hasKey_eq_isSome] at hk
    rw [getKey_update_same]
    cases hg : getKey m c with
    | none => rfl
    | some l => simp [hg] at hk
  · decide
  · decide

/-- Witness for C1: the three cases at concrete maps. -/
theorem updateContractAddresses_cases_witness :
    getKey (updateContractAddresses [("5", ["0xC"]), ("31337", ["0xAAA"])] "31337" "0xAAA")
        "31337" = some ["0xAAA"] ∧
    getKey (updateContractAddresses [("5", ["0xC"]), ("31337", ["0xAAA"])] "31337" "0xBBB")
        "31337" = some (["0xAAA"] ++ ["0xBBB"]) ∧
    getKey (updateContractAddresses [("5", ["0xC"])] "31337" "0xBBB") "31337"
        = some ["0xBBB"] :=
  ⟨((updateContractAddresses_cases [("5", ["0xC"]), ("31337", ["0xAAA"])] "31337" "0xAAA").1
      ["0xAAA"] (by decide) (by decide) (by decide)).1,
   (updateContractAddresses_cases [("5", ["0xC"]), ("31337", ["0xAAA"])] "31337" "0xBBB").2.1
      ["0xAAA"] (by decide) (by decide) (by decide),
   (updateContractAddresses_cases [("5", ["0xC"])] "31337" "0xBBB").2.2.1 (by decide)⟩

/-- C2: the address export is idempotent: a second run with the same chain id
and address writes the map the first run wrote, and the address occurs in the
chain id's list no more often after the second run than after the first. -/
theorem updateContractAddresses_idempotent (m : AddressMap) (c a : String) :
    updateContractAddresses (updateContractAddresses m c a) c a
      = updateContractAddresses m c a ∧
    ∀ l1 l2, getKey (updateContractAddresses m c a) c = some l1 →
      getKey (updateContractAddresses (updateContractAddresses m c a) c a) c = some l2 →
      a ∈ l1 ∧ l2.count a ≤ l1.count a := by
  have hmem : ∀ l, getKey (updateContractAddresses m c a) c = some l → a ∈ l := by
    intro l hl
    rw [getKey_update_same] at hl
    cases hg : getKey m c with
    | none => rw [hg] at hl; simp at hl; simp [← hl]
    | some l0 =>
      rw [hg] at hl
      by_cases ha : a ∈ l0
      · simp [ha] at hl; rw [← hl]; exact ha
      · simp [ha] at hl; simp [← hl]
  have hidem : updateContractAddresses (updateContractAddresses m c a) c a
      = updateContractAddresses m c a := by
    have hs := getKey_update_same m c a
    generalize updateContractAddresses m c a = m1 at hs hmem
    have ha := hmem _ hs
    simp [updateContractAddresses, hasKey_eq_isSome, hs, ha]
  refine ⟨hidem, ?_⟩
  intro l1 l2 h1 h2
  rw [hidem, h1] at h2
  cases h2
  exact ⟨hmem l1 h1, le_refl _⟩

/-- Witness for C2: two runs on the map of the example. -/
theorem updateContractAddresses_idempotent_witness :
    "0xBBB" ∈ ["0xAAA", "0xBBB"] ∧
      (["0xAAA", "0xBBB"] : List String).count "0xBBB"
        ≤ (["0xAAA", "0xBBB"] : List String).count "0xBBB" :=
  (updateContractAddresses_idempotent [("31337", ["0xAAA"])] "31337" "0xBBB").2
    ["0xAAA", "0xBBB"] ["0xAAA", "0xBBB"] (by decide) (by decide)

/-- C10: the address export changes only the exported chain id's entry: every
other chain id is a key of the written map exactly when it is a key of the
existing one, with the same list; and the existing list of the exported chain
id is a prefix of the written one. -/
theorem updateContractAddresses_frame (m : AddressMap) (c a : String) :
    (∀ d, d ≠ c →
      hasKey (updateContractAddresses m c a) d = hasKey m d ∧
      getKey (updateContractAddresses m c a) d = getKey m d) ∧
    (∀ l, getKey m c = some l →
      ∃ l2, getKey (updateContractAddresses m c a) c = some l2 ∧ l <+: l2) := by
  constructor
  · intro d hd
    have h := getKey_update_other m c a d hd
    exact ⟨by rw [hasKey_eq_isSome, hasKey_eq_isSome, h], h⟩
  · intro l hl
    rw [getKey_update_same, hl]
    by_cases ha : a ∈ l
    · exact ⟨l, by simp [ha], List.prefix_refl l⟩
    · exact ⟨l ++ [a], by simp [ha], List.prefix_append l [a]⟩

/-- Witness for C10: exporting to `31337` leaves the entry of chain `5` alone
and extends the list of `31337`. -/
theorem updateContractAddresses_frame_witness :
    (hasKey (updateContractAddresses [("5", ["0xC"]), ("31337", ["0xAAA"])] "31337" "0xBBB") "5"
        = hasKey [("5", ["0xC"]), ("31337", ["0xAAA"])] "5" ∧
      getKey (updateContractAddresses [("5", ["0xC"]), ("31337", ["0xAAA"])] "31337" "0xBBB") "5"
        = getKey [("5", ["0xC"]), ("31337", ["0xAAA"])] "5") ∧
    ∃ l2, getKey (updateContractAddresses [("5", ["0xC"]), ("31337", ["0xAAA"])] "31337" "0xBBB")
        "31337" = some l2 ∧ ["0xAAA"] <+: l2 :=
  ⟨(updateContractAddresses_frame [("5", ["0xC"]), ("31337", ["0xAAA"])] "31337" "0xBBB").1
      "5" (by decide),
   (updateContractAddresses_frame [("5", ["0xC"]), ("31337", ["0xAAA"])] "31337" "0xBBB").2
      ["0xAAA"] (by decide)⟩


/-! ## The lottery deploy step -/

/-- Every call of `deploy` in the lottery deploy step is the one of line 87. -/
theorem deployLottery_deploy_mem (w : World) (name : String) (sender : JSVal)
    (args : List JSVal) (lg : Bool) (wc : JSVal)
    (h : Call.deploy name sender args lg wc ∈ (deployLottery w).calls) :
    name = "Lottery" ∧ w.namedAccounts = .ok sender ∧ lg = true ∧
      wc = jsOr w.blockConfirmations (.num 1) ∧
      ∃ entry oracle subId,
        lookupConfig w.networkConfig (chainKey w.chainId) = some entry ∧
        (subscription w).result = .ok (oracle, subId) ∧
        args = [oracle, prop entry "entranceFee", prop entry "gasLane", subId,
          prop entry "callBackGasLimit", prop entry "interval"] := by
  revert h
  cases hdev : w.developmentChains.contains w.networkName
  · simp only [deployLottery, subscription, configProp, hdev]
    cases w.namedAccounts <;> simp
    cases lookupConfig w.networkConfig (chainKey w.chainId) <;> simp
    cases w.lotteryDeployment <;> simp
    · intro h1 h2 h3 h4 h5; simp [h1, h2, h3, h4, h5]
    · cases truthy (envVal w.ETHERSCAN_API_KEY) <;> simp
      · intro h1 h2 h3 h4 h5; simp [h1, h2, h3, h4, h5]
      · cases w.verification <;> simp <;>
          (intro h1 h2 h3 h4 h5; simp [h1, h2, h3, h4, h5])
  · simp only [deployLottery, subscription, configProp, hdev]
    cases w.namedAccounts <;> simp
    cases w.mockContract <;> simp
    cases w.subscriptionTx <;> simp
    rcases w.receiptEvents with e | (_ | ⟨(_ | sid), rest⟩) <;> simp [firstSubId]
    cases w.funding <;> simp
    cases lookupConfig w.networkConfig (chainKey w.chainId) <;> simp
    cases w.lotteryDeployment <;> simp <;>
      (intro h1 h2 h3 h4 h5; simp [h1, h2, h3, h4, h5])

/-- When the account lookup, the subscription branch and the configuration
reads succeed, the lottery deploy step calls `deploy`. -/
theorem deployLottery_deploy_reached (w : World) (deployer oracle subId : JSVal)
    (entry : ConfigEntry) (hn : w.namedAccounts = .ok deployer)
    (he : lookupConfig w.networkConfig (chainKey w.chainId) = some entry)
    (hs : (subscription w).result = .ok (oracle, subId)) :
    Call.deploy "Lottery" deployer
      [oracle, prop entry "entranceFee", prop entry "gasLane", subId,
        prop entry "callBackGasLimit", prop entry "interval"] true
      (jsOr w.blockConfirmations (.num 1)) ∈ (deployLottery w).calls := by
  simp only [deployLottery, configProp]
  simp [hn, he, hs]
  cases w.lotteryDeployment <;> simp

/-- The lottery deploy step calls `deploy` at most once. -/
theorem deployLottery_records_le (w : World) :
    deployCalls (deployLottery w).calls ≤ 1 := by
  cases hdev : w.developmentChains.contains w.networkName
  · simp only [deployLottery, subscription, configProp, hdev, deployCalls]
    cases w.namedAccounts <;> simp [Call.isDeploy]
    cases lookupConfig w.networkConfig (chainKey w.chainId) <;> simp [Call.isDeploy]
    cases w.lotteryDeployment <;> simp [Call.isDeploy]
    cases truthy (envVal w.ETHERSCAN_API_KEY) <;> simp [Call.isDeploy]
    cases w.verification <;> simp [Call.isDeploy]
  · simp only [deployLottery, subscription, configProp, hdev, deployCalls]
    cases w.namedAccounts <;> simp [Call.isDeploy]
    cases w.mockContract <;> simp [Call.isDeploy]
    cases w.subscriptionTx <;> simp [Call.isDeploy]
    rcases w.receiptEvents with e | (_ | ⟨(_ | sid), rest⟩) <;>
      simp [firstSubId, Call.isDeploy]
    cases w.funding <;> simp [Call.isDeploy]
    cases lookupConfig w.networkConfig (chainKey w.chainId) <;> simp [Call.isDeploy]
    cases w.lotteryDeployment <;> simp [Call.isDeploy]


/-- C3: whenever the lottery deploy step calls `deploy`, the oracle address
(first argument) and the subscription id (fourth argument) come from the same
source: on a development chain both are mock-derived (the address of the
`VRFCoordinatorV2Mock` contract and the `subId` of the first event of the
`createSubscription` receipt), on any other network both are read from the
configuration entry of the chain id. -/
theorem deployLottery_same_source (w : World) (name : String) (sender : JSVal)
    (args : List JSVal) (lg : Bool) (wc : JSVal)
    (h : Call.deploy name sender args lg wc ∈ (deployLottery w).calls) :
    (w.developmentChains.contains w.networkName = true ∧
      ∃ addr events subId, w.mockContract = .ok addr ∧ w.receiptEvents = .ok events ∧
        firstSubId events = some subId ∧
        args[0]? = some addr ∧ args[3]? = some subId) ∨
    (w.developmentChains.contains w.networkName = false ∧
      ∃ entry, lookupConfig w.networkConfig (chainKey w.chainId) = some entry ∧
        args[0]? = some (prop entry "vrfCoordinatorV2") ∧
        args[3]? = some (prop entry "subscriptionId")) := by
  revert h
  cases hdev : w.developmentChains.contains w.networkName
  · simp only [deployLottery, subscription, configProp, hdev]
    cases w.namedAccounts <;> simp
    cases lookupConfig w.networkConfig (chainKey w.chainId) <;> simp
    cases w.lotteryDeployment <;> simp
    · intro _ _ h _ _; simp [h]
    · cases truthy (envVal w.ETHERSCAN_API_KEY) <;> simp
      · intro _ _ h _ _; simp [h]
      · cases w.verification <;> simp <;> (intro _ _ h _ _; simp [h])
  · simp only [deployLottery, subscription, configProp, hdev]
    cases w.namedAccounts <;> simp
    cases w.mockContract <;> simp
    cases w.subscriptionTx <;> simp
    rcases w.receiptEvents with e | (_ | ⟨(_ | sid), rest⟩) <;> simp [firstSubId]
    cases w.funding <;> simp
    cases lookupConfig w.networkConfig (chainKey w.chainId) <;> simp
    cases w.lotteryDeployment <;> simp <;> (intro _ _ h _ _; simp [h])


/-- Witness for C3: the local network passes the mock's address and the
receipt's `subId`, the test network its two configuration values. -/
theorem deployLottery_same_source_witness :
    ((localWorld.developmentChains.contains localWorld.networkName = true ∧
      ∃ addr events subId, localWorld.mockContract = .ok addr ∧
        localWorld.receiptEvents = .ok events ∧ firstSubId events = some subId ∧
        [JSVal.str "0xM0", .big 10000000000000000, .str "0x79", .big 1, .str "500000",
          .str "30"][0]? = some addr ∧
        [JSVal.str "0xM0", .big 10000000000000000, .str "0x79", .big 1, .str "500000",
          .str "30"][3]? = some subId) ∨
    (localWorld.developmentChains.contains localWorld.networkName = false ∧
      ∃ entry, lookupConfig localWorld.networkConfig (chainKey localWorld.chainId) = some entry ∧
        [JSVal.str "0xM0", .big 10000000000000000, .str "0x79", .big 1, .str "500000",
          .str "30"][0]? = some (prop entry "vrfCoordinatorV2") ∧
        [JSVal.str "0xM0", .big 10000000000000000, .str "0x79", .big 1, .str "500000",
          .str "30"][3]? = some (prop entry "subscriptionId"))) ∧
    ((remoteWorld.developmentChains.contains remoteWorld.networkName = true ∧
      ∃ addr events subId, remoteWorld.mockContract = .ok addr ∧
        remoteWorld.receiptEvents = .ok events ∧ firstSubId events = some subId ∧
        [JSVal.str "0xC0", .big 10000000000000000, .str "0x79", .str "7", .str "500000",
          .str "30"][0]? = some addr ∧
        [JSVal.str "0xC0", .big 10000000000000000, .str "0x79", .str "7", .str "500000",
          .str "30"][3]? = some subId) ∨
    (remoteWorld.developmentChains.contains remoteWorld.networkName = false ∧
      ∃ entry, lookupConfig remoteWorld.networkConfig (chainKey remoteWorld.chainId)
          = some entry ∧
        [JSVal.str "0xC0", .big 10000000000000000, .str "0x79", .str "7", .str "500000",
          .str "30"][0]? = some (prop entry "vrfCoordinatorV2") ∧
        [JSVal.str "0xC0", .big 10000000000000000, .str "0x79", .str "7", .str "500000",
          .str "30"][3]? = some (prop entry "subscriptionId"))) :=
  ⟨deployLottery_same_source localWorld "Lottery" (.str "0xD0")
      [.str "0xM0", .big 10000000000000000, .str "0x79", .big 1, .str "500000", .str "30"]
      true (.num 1) (by decide),
   deployLottery_same_source remoteWorld "Lottery" (.str "0xD0")
      [.str "0xC0", .big 10000000000000000, .str "0x79", .str "7", .str "500000", .str "30"]
      true (.num 6) (by decide)⟩


/-- C4: every call of `deploy` made by the lottery deploy step is under the
name `Lottery` with exactly six constructor arguments in the order oracle
address, entrance fee, gas lane, subscription id, callback gas limit,
interval, the second, third, fifth and sixth being the values of the
configuration entry of the chain id; the call is made whenever the steps
before it succeed, and at most once. -/
theorem deployLottery_deploy_args (w : World) :
    (∀ c ∈ (deployLottery w).calls, c.isDeploy = true →
      ∃ deployer entry oracle subId,
        w.namedAccounts = .ok deployer ∧
        lookupConfig w.networkConfig (chainKey w.chainId) = some entry ∧
        (subscription w).result = .ok (oracle, subId) ∧
        c = .deploy "Lottery" deployer
          [oracle, prop entry "entranceFee", prop entry "gasLane", subId,
            prop entry "callBackGasLimit", prop entry "interval"] true
          (jsOr w.blockConfirmations (.num 1))) ∧
    (∀ deployer entry oracle subId,
      w.namedAccounts = .ok deployer →
      lookupConfig w.networkConfig (chainKey w.chainId) = some entry →
      (subscription w).result = .ok (oracle, subId) →
      Call.deploy "Lottery" deployer
        [oracle, prop entry "entranceFee", prop entry "gasLane", subId,
          prop entry "callBackGasLimit", prop entry "interval"] true
        (jsOr w.blockConfirmations (.num 1)) ∈ (deployLottery w).calls) ∧
    deployCalls (deployLottery w).calls ≤ 1 := by
  refine ⟨?_, ?_, deployLottery_records_le w⟩
  · intro c hc hd
    cases c with
    | deploy name sender args lg wc =>
      obtain ⟨h1, h2, h3, h4, entry, oracle, subId, h5, h6, h7⟩ :=
        deployLottery_deploy_mem w name sender args lg wc hc
      exact ⟨sender, entry, oracle, subId, h2, h5, h6, by rw [h1, h3, h4, h7]⟩
    | _ => simp [Call.isDeploy] at hd
  · intro deployer entry oracle subId hn he hs
    exact deployLottery_deploy_reached w deployer oracle subId entry hn he hs

/-- Witness for C4: the deploy call of the test network. -/
theorem deployLottery_deploy_args_witness :
    ∃ deployer entry oracle subId,
      remoteWorld.namedAccounts = .ok deployer ∧
      lookupConfig remoteWorld.networkConfig (chainKey remoteWorld.chainId) = some entry ∧
      (subscription remoteWorld).result = .ok (oracle, subId) ∧
      Call.deploy "Lottery" (.str "0xD0")
          [.str "0xC0", .big 10000000000000000, .str "0x79", .str "7", .str "500000",
            .str "30"] true (.num 6)
        = .deploy "Lottery" deployer
          [oracle, prop entry "entranceFee", prop entry "gasLane", subId,
            prop entry "callBackGasLimit", prop entry "interval"] true
          (jsOr remoteWorld.blockConfirmations (.num 1)) :=
  (deployLottery_deploy_args remoteWorld).1
    (.deploy "Lottery" (.str "0xD0")
      [.str "0xC0", .big 10000000000000000, .str "0x79", .str "7", .str "500000", .str "30"]
      true (.num 6)) (by decide) rfl

/-- C8: on a network whose name is not in `developmentChains`, the lottery
deploy step makes no call to a mock oracle entry point: it does not call
`ethers.getContract("VRFCoordinatorV2Mock")`, `createSubscription` or
`fundSubscription`. -/
theorem deployLottery_remote_no_mock (w : World)
    (hdev : w.developmentChains.contains w.networkName = false) :
    Call.getContract "VRFCoordinatorV2Mock" ∉ (deployLottery w).calls ∧
    Call.createSubscription ∉ (deployLottery w).calls ∧
    (∀ subId amount, Call.fundSubscription subId amount ∉ (deployLottery w).calls) ∧
    ∀ c ∈ (deployLottery w).calls, c.isMockEntry = false := by
  simp only [deployLottery, subscription, configProp, hdev]
  cases w.namedAccounts <;> simp [Call.isMockEntry]
  cases lookupConfig w.networkConfig (chainKey w.chainId) <;> simp [Call.isMockEntry]
  cases w.lotteryDeployment <;> simp [Call.isMockEntry]
  cases truthy (envVal w.ETHERSCAN_API_KEY) <;> simp [Call.isMockEntry]
  cases w.verification <;> simp [Call.isMockEntry]

/-- Witness for C8: the test network. -/
theorem deployLottery_remote_no_mock_witness :
    Call.getContract "VRFCoordinatorV2Mock" ∉ (deployLottery remoteWorld).calls ∧
    Call.createSubscription ∉ (deployLottery remoteWorld).calls ∧
    (∀ subId amount, Call.fundSubscription subId amount ∉ (deployLottery remoteWorld).calls) ∧
    ∀ c ∈ (deployLottery remoteWorld).calls, c.isMockEntry = false :=
  deployLottery_remote_no_mock remoteWorld (by decide)

/-- C9 as stated fails: with `blockConfirmations: 0` configured, the only
`deploy` call of the step passes `waitConfirmations: 1`, not `0`. -/
theorem deployLottery_waitConfirmations_counterexample :
    remoteWorldZeroConfirmations.blockConfirmations = .num 0 ∧
    (deployLottery remoteWorldZeroConfirmations).calls.filter Call.isDeploy =
      [.deploy "Lottery" (.str "0xD0")
        [.str "0xC0", .big 10000000000000000, .str "0x79", .str "7", .str "500000",
          .str "30"] true (.num 1)] := by
  decide

/-- C9, amended: the `waitConfirmations` passed when deploying the Lottery is
the configured `blockConfirmations` for every network that configures a
non-zero count, and `1` for every network that configures none or
configures `0`. -/
theorem deployLottery_waitConfirmations (w : World) (name : String) (sender : JSVal)
    (args : List JSVal) (lg : Bool) (wc : JSVal)
    (h : Call.deploy name sender args lg wc ∈ (deployLottery w).calls) :
    (∀ n, n ≠ 0 → w.blockConfirmations = .num n → wc = .num n) ∧
    (w.blockConfirmations = .undefined → wc = .num 1) ∧
    (w.blockConfirmations = .num 0 → wc = .num 1) := by
  obtain ⟨_, _, _, hwc, _⟩ := deployLottery_deploy_mem w name sender args lg wc h
  subst hwc
  refine ⟨?_, ?_, ?_⟩
  · intro n hn hb
    simp [hb, jsOr, truthy, hn]
  · intro hb
    simp [hb, jsOr, truthy]
  · intro hb
    simp [hb, jsOr, truthy]

/-- Witness for C9: six confirmations configured, six passed. -/
theorem deployLottery_waitConfirmations_witness :
    remoteWorld.blockConfirmations = .num 6 ∧ JSVal.num 6 = .num 6 :=
  ⟨rfl, (deployLottery_waitConfirmations remoteWorld "Lottery" (.str "0xD0")
    [.str "0xC0", .big 10000000000000000, .str "0x79", .str "7", .str "500000", .str "30"]
    true (.num 6) (by decide)).1 6 (by decide) rfl⟩

/-- C5 as stated fails twice: on the test network with the explorer key
present, `verify` is not called when the Lottery deployment is rejected; and
it is not called when the key is set to the empty string. -/
theorem deployLottery_verify_counterexample :
    (remoteWorldDeployRejected.developmentChains.contains
        remoteWorldDeployRejected.networkName = false ∧
      remoteWorldDeployRejected.ETHERSCAN_API_KEY = some "KEY" ∧
      verifyCalls (deployLottery remoteWorldDeployRejected).calls = 0) ∧
    (remoteWorldEmptyKey.developmentChains.contains remoteWorldEmptyKey.networkName = false ∧
      remoteWorldEmptyKey.ETHERSCAN_API_KEY = some "" ∧
      (deployLottery remoteWorldEmptyKey).result = .ok () ∧
      verifyCalls (deployLottery remoteWorldEmptyKey).calls = 0) := by
  refine ⟨⟨by decide, rfl, by decide⟩, by decide, rfl, rfl, by decide⟩

/-- C5, amended: in the lottery deploy step `verify` is called at most once;
it is called exactly when the network name is not in `developmentChains`, the
variable `ETHERSCAN_API_KEY` is set to a non-empty string, and the step got as
far as a Lottery deployment that returned; the call carries the address that
deployment returned and the argument list passed to `deploy`.  On a network
outside `developmentChains` with the variable unset, `verify` is not called. -/
theorem deployLottery_verify (w : World) :
    verifyCalls (deployLottery w).calls ≤ 1 ∧
    (verifyCalls (deployLottery w).calls = 1 ↔
      (w.developmentChains.contains w.networkName = false ∧
        truthy (envVal w.ETHERSCAN_API_KEY) = true ∧
        ∃ deployer entry address, w.namedAccounts = .ok deployer ∧
          lookupConfig w.networkConfig (chainKey w.chainId) = some entry ∧
          w.lotteryDeployment = .ok address)) ∧
    (∀ address args, Call.verify address args ∈ (deployLottery w).calls →
      w.lotteryDeployment = .ok address ∧
      ∃ sender wc, Call.deploy "Lottery" sender args true wc ∈ (deployLottery w).calls) ∧
    (w.developmentChains.contains w.networkName = false → w.ETHERSCAN_API_KEY = none →
      verifyCalls (deployLottery w).calls = 0) := by
  cases hdev : w.developmentChains.contains w.networkName
  · simp only [deployLottery, subscription, configProp, hdev, verifyCalls]
    cases w.namedAccounts <;> simp [Call.isVerify]
    cases lookupConfig w.networkConfig (chainKey w.chainId) <;> simp [Call.isVerify]
    cases w.lotteryDeployment <;> simp [Call.isVerify]
    cases hk : w.ETHERSCAN_API_KEY with
    | none => simp [envVal, truthy, Call.isVerify]
    | some k =>
      cases ht : truthy (envVal (some k)) <;> simp [Call.isVerify]
      cases w.verification <;> simp [Call.isVerify]
  · simp only [deployLottery, subscription, configProp, hdev, verifyCalls]
    cases w.namedAccounts <;> simp [Call.isVerify]
    cases w.mockContract <;> simp [Call.isVerify]
    cases w.subscriptionTx <;> simp [Call.isVerify]
    rcases w.receiptEvents with e | (_ | ⟨(_ | sid), rest⟩) <;>
      simp [firstSubId, Call.isVerify]
    cases w.funding <;> simp [Call.isVerify]
    cases lookupConfig w.networkConfig (chainKey w.chainId) <;> simp [Call.isVerify]
    cases w.lotteryDeployment <;> simp [Call.isVerify]

/-- Witness for C5: with the key unset the test network makes no `verify`
call; with the key set it makes the one call, with the deployed address and
the arguments of `deploy`. -/
theorem deployLottery_verify_witness :
    verifyCalls (deployLottery remoteWorldNoKey).calls = 0 ∧
    (remoteWorld.lotteryDeployment = .ok (.str "0xL0") ∧
      ∃ sender wc, Call.deploy "Lottery" sender
        [.str "0xC0", .big 10000000000000000, .str "0x79", .str "7", .str "500000", .str "30"]
        true wc ∈ (deployLottery remoteWorld).calls) :=
  ⟨(deployLottery_verify remoteWorldNoKey).2.2.2 (by decide) rfl,
   (deployLottery_verify remoteWorld).2.2.1 (.str "0xL0")
    [.str "0xC0", .big 10000000000000000, .str "0x79", .str "7", .str "500000", .str "30"]
    (by decide)⟩

/-- C7 as stated fails: on the test network with an entry that has no
`subscriptionId`, the step does not fail and `deploy` is called, with
`undefined` as the subscription id. -/
theorem deployLottery_config_errors_counterexample :
    remoteWorldMissingKey.developmentChains.contains remoteWorldMissingKey.networkName = false ∧
    (∃ entry, lookupConfig remoteWorldMissingKey.networkConfig
        (chainKey remoteWorldMissingKey.chainId) = some entry ∧
      entry.all (fun kv => kv.1 != "subscriptionId") = true) ∧
    (deployLottery remoteWorldMissingKey).result = .ok () ∧
    (deployLottery remoteWorldMissingKey).calls.filter Call.isDeploy =
      [.deploy "Lottery" (.str "0xD0")
        [.str "0xC0", .big 10000000000000000, .str "0x79", .undefined, .str "500000",
          .str "30"] true (.num 6)] := by
  refine ⟨by decide, ⟨_, rfl, by decide⟩, rfl, by decide⟩

/-- C7, amended: on a network outside `developmentChains`, a chain id without
entry in `networkConfig` is fatal: the step ends with an error after the
account lookup and `deploy` is not called.  An entry that exists is not
checked for its keys: a key it lacks reads as `undefined`, and the step calls
`deploy` with the six values read. -/
theorem deployLottery_config_errors (w : World)
    (hdev : w.developmentChains.contains w.networkName = false) :
    (lookupConfig w.networkConfig (chainKey w.chainId) = none →
      (∃ e, (deployLottery w).result = .error e) ∧
      (deployLottery w).calls = [.getNamedAccounts] ∧
      deployCalls (deployLottery w).calls = 0) ∧
    (∀ deployer entry, w.namedAccounts = .ok deployer →
      lookupConfig w.networkConfig (chainKey w.chainId) = some entry →
      Call.deploy "Lottery" deployer
        [prop entry "vrfCoordinatorV2", prop entry "entranceFee", prop entry "gasLane",
          prop entry "subscriptionId", prop entry "callBackGasLimit", prop entry "interval"]
        true (jsOr w.blockConfirmations (.num 1)) ∈ (deployLottery w).calls) ∧
    (∀ (entry : ConfigEntry) key, entry.all (fun kv => kv.1 != key) = true →
      prop entry key = .undefined) := by
  refine ⟨?_, ?_, ?_⟩
  · intro he
    simp only [deployLottery, subscription, configProp, hdev, deployCalls, he]
    cases w.namedAccounts <;> simp [Call.isDeploy]
  · intro deployer entry hn he
    apply deployLottery_deploy_reached w deployer _ _ entry hn he
    simp only [subscription, configProp, hdev, he]
    simp
  · intro entry key h
    induction entry with
    | nil => rfl
    | cons kv rest ih =>
      obtain ⟨k, v⟩ := kv
      simp only [List.all_cons, Bool.and_eq_true, bne_iff_ne, ne_eq] at h
      simp [prop, h.1, ih h.2]

/-- Witness for C7: the test network without entry for its chain id. -/
theorem deployLottery_config_errors_witness :
    (∃ e, (deployLottery remoteWorldNoEntry).result = .error e) ∧
    (deployLottery remoteWorldNoEntry).calls = [.getNamedAccounts] ∧
    deployCalls (deployLottery remoteWorldNoEntry).calls = 0 :=
  (deployLottery_config_errors remoteWorldNoEntry (by decide)).1 (by decide)


/-! ## A full run -/

/-- The front-end export makes no call of `deploy` or `verify`, saves no
deployment record and never fails the run. -/
theorem updateFrontEnd_records (w : World) :
    deployCalls (updateFrontEnd w).calls = 0 ∧
    verifyCalls (updateFrontEnd w).calls = 0 ∧
    (updateFrontEnd w).result = .ok () ∧
    (updateFrontEnd w).saved = [] := by
  simp only [updateFrontEnd, updateContractAddressesJob, updateABIJob, deployCalls,
    verifyCalls]
  cases truthy (envVal w.UPDATE_FRONT_END) <;> simp [Call.isDeploy, Call.isVerify]
  cases w.lotteryContract <;> simp [Call.isDeploy, Call.isVerify]
  cases w.chainId <;> simp [Call.isDeploy, Call.isVerify]
  cases w.addressesFile <;> simp [Call.isDeploy, Call.isVerify]

/-- On a development chain, a mock deploy step that does not fail makes one
call of `deploy` and none of `verify`, and saves the record of the mock. -/
theorem deployMocks_local_records (w : World)
    (hdev : w.developmentChains.contains w.networkName = true)
    (hok : (deployMocks w).result = .ok ()) :
    deployCalls (deployMocks w).calls = 1 ∧ verifyCalls (deployMocks w).calls = 0 ∧
    ∃ mockAddress, w.mockDeployment = .ok mockAddress ∧
      (deployMocks w).saved =
        [⟨"VRFCoordinatorV2Mock", mockAddress, [BASE_FEE, GAS_PRICE_LINK]⟩] := by
  revert hok
  simp only [deployMocks, hdev, deployCalls, verifyCalls]
  cases w.namedAccounts <;> simp [Call.isDeploy, Call.isVerify]
  cases w.mockDeployment <;> simp [Call.isDeploy, Call.isVerify]

/-- On a development chain, a lottery deploy step that does not fail makes
one call of `deploy` and none of `verify`, and saves the record of the
lottery, with the six arguments of the call. -/
theorem deployLottery_local_records (w : World)
    (hdev : w.developmentChains.contains w.networkName = true)
    (hok : (deployLottery w).result = .ok ()) :
    deployCalls (deployLottery w).calls = 1 ∧
    verifyCalls (deployLottery w).calls = 0 ∧
    ∃ lotteryAddress entry oracle subId,
      w.lotteryDeployment = .ok lotteryAddress ∧
      lookupConfig w.networkConfig (chainKey w.chainId) = some entry ∧
      (subscription w).result = .ok (oracle, subId) ∧
      (deployLottery w).saved =
        [⟨"Lottery", lotteryAddress,
          [oracle, prop entry "entranceFee", prop entry "gasLane", subId,
            prop entry "callBackGasLimit", prop entry "interval"]⟩] := by
  revert hok
  simp only [deployLottery, subscription, configProp, hdev, deployCalls, verifyCalls]
  cases w.namedAccounts <;> simp [Call.isDeploy, Call.isVerify]
  cases w.mockContract <;> simp [Call.isDeploy, Call.isVerify]
  cases w.subscriptionTx <;> simp [Call.isDeploy, Call.isVerify]
  rcases w.receiptEvents with e | (_ | ⟨(_ | sid), rest⟩) <;>
    simp [firstSubId, Call.isDeploy, Call.isVerify]
  cases w.funding <;> simp [Call.isDeploy, Call.isVerify]
  cases lookupConfig w.networkConfig (chainKey w.chainId) <;>
    simp [Call.isDeploy, Call.isVerify]
  cases w.lotteryDeployment <;> simp [Call.isDeploy, Call.isVerify]

/-- A full run that does not fail is made of three steps that do not fail;
its calls and its saved records are theirs in order. -/
theorem fullRun_ok (w : World) (hok : (fullRun w).result = .ok ()) :
    (deployMocks w).result = .ok () ∧ (deployLottery w).result = .ok () ∧
    (fullRun w).calls =
      (deployMocks w).calls ++ ((deployLottery w).calls ++ (updateFrontEnd w).calls) ∧
    (fullRun w).saved =
      (deployMocks w).saved ++ ((deployLottery w).saved ++ (updateFrontEnd w).saved) := by
  revert hok
  simp only [fullRun, Script.result_bind, Script.calls_bind, Script.saved_bind]
  cases h1 : (deployMocks w).result with
  | error e => simp
  | ok u =>
    cases h2 : (deployLottery w).result with
    | error e => simp
    | ok v => simp

/-- C6 as stated fails: the full run on the local network, no step failing,
produces two deployment records, one named `VRFCoordinatorV2Mock` and one
named `Lottery`, not three. -/
theorem fullRun_local_counterexample :
    localWorld.developmentChains.contains localWorld.networkName = true ∧
    (fullRun localWorld).result = .ok () ∧
    deploymentRecords (fullRun localWorld) =
      [⟨"VRFCoordinatorV2Mock", .str "0xM0", [BASE_FEE, GAS_PRICE_LINK]⟩,
       ⟨"Lottery", .str "0xL0",
        [.str "0xM0", .big 10000000000000000, .str "0x79", .big 1, .str "500000",
          .str "30"]⟩] ∧
    (deploymentRecords (fullRun localWorld)).length ≠ 3 := by
  refine ⟨by decide, rfl, by decide, by decide⟩

/-- C6, amended: on a development chain, a full run of the three deploy
scripts in which no step fails produces exactly two deployment records: the
first under the name `VRFCoordinatorV2Mock`, with the address the mock
deployment returned and the arguments `BASE_FEE`, `GAS_PRICE_LINK`; the second
under the name `Lottery`, with the address the lottery deployment returned and
the six constructor arguments.  The run makes two calls of `deploy` and no
call of `verify`. -/
theorem fullRun_local_records (w : World)
    (hdev : w.developmentChains.contains w.networkName = true)
    (hok : (fullRun w).result = .ok ()) :
    (∃ mockAddress lotteryAddress entry oracle subId,
      w.mockDeployment = .ok mockAddress ∧
      w.lotteryDeployment = .ok lotteryAddress ∧
      lookupConfig w.networkConfig (chainKey w.chainId) = some entry ∧
      (subscription w).result = .ok (oracle, subId) ∧
      deploymentRecords (fullRun w) =
        [⟨"VRFCoordinatorV2Mock", mockAddress, [BASE_FEE, GAS_PRICE_LINK]⟩,
         ⟨"Lottery", lotteryAddress,
          [oracle, prop entry "entranceFee", prop entry "gasLane", subId,
            prop entry "callBackGasLimit", prop entry "interval"]⟩]) ∧
    (deploymentRecords (fullRun w)).length = 2 ∧
    (deploymentRecords (fullRun w)).map DeploymentRecord.name
      = ["VRFCoordinatorV2Mock", "Lottery"] ∧
    deployCalls (fullRun w).calls = 2 ∧
    verifyCalls (fullRun w).calls = 0 := by
  obtain ⟨h1, h2, hc, hs⟩ := fullRun_ok w hok
  obtain ⟨m1, m2, mockAddress, hm, m3⟩ := deployMocks_local_records w hdev h1
  obtain ⟨l1, l2, lotteryAddress, entry, oracle, subId, hl, he, hsub, l3⟩ :=
    deployLottery_local_records w hdev h2
  obtain ⟨f1, f2, _, f3⟩ := updateFrontEnd_records w
  have hrec : deploymentRecords (fullRun w) =
      [⟨"VRFCoordinatorV2Mock", mockAddress, [BASE_FEE, GAS_PRICE_LINK]⟩,
       ⟨"Lottery", lotteryAddress,
        [oracle, prop entry "entranceFee", prop entry "gasLane", subId,
          prop entry "callBackGasLimit", prop entry "interval"]⟩] := by
    unfold deploymentRecords
    rw [hs, m3, l3, f3]
    simp [saveRecord]
  refine ⟨⟨mockAddress, lotteryAddress, entry, oracle, subId, hm, hl, he, hsub, hrec⟩,
    ?_, ?_, ?_, ?_⟩
  · rw [hrec]; rfl
  · rw [hrec]; rfl
  · unfold deployCalls at m1 l1 f1 ⊢
    rw [hc]
    simp only [List.filter_append, List.length_append]
    omega
  · unfold verifyCalls at m2 l2 f2 ⊢
    rw [hc]
    simp only [List.filter_append, List.length_append]
    omega

/-- Witness for C6: the full run on the local network. -/
theorem fullRun_local_records_witness :
    (deploymentRecords (fullRun localWorld)).length = 2 ∧
    (deploymentRecords (fullRun localWorld)).map DeploymentRecord.name
      = ["VRFCoordinatorV2Mock", "Lottery"] ∧
    deployCalls (fullRun localWorld).calls = 2 ∧
    verifyCalls (fullRun localWorld).calls = 0 :=
  (fullRun_local_records localWorld (by decide) rfl).2

end HardhatLottery
